import Mathlib

/-!
Shallow embedding of the visit-recency pipeline in
src/Recent_Site_Visits_Spreadsheet.py.

Dates are modelled as integer day numbers (days since the Unix epoch,
computed by the standard civil-calendar algorithm), so the pandas
subtraction `(today - date).dt.days` at day granularity becomes integer
subtraction.  The analyzer core `analyzeCore` is the logical content of
`analyze_site_visits_from_sheets` between the date conversion and the
summary: filter to target sites, take the most recent visit per site,
compute days since visit, visit-required flag and priority, backfill
target sites without data, and sort by (priority rank ascending, days
descending).  `summaryOf` is the `summary_stats` dictionary.
`analyzeFull` adds the input plumbing: an unavailable source (the
`load_data_from_google_sheets` failure path returning None), missing
Site or Date columns (KeyError), and the four-step date-format fallback
chain of lines 132-146, whose individual parsers (pandas `to_datetime`
variants) are external collaborators and hence parameters.
-/

namespace SiteVisits

/-- The three priority tiers returned by `get_priority`. -/
inductive Priority where
  | high
  | medium
  | low
deriving DecidableEq, Repr

/-- `get_priority` (lines 167-173): days > 180 is HIGH, days > 120 is
MEDIUM, otherwise LOW.  Total on all integers, as in Python. -/
def get_priority (days : Int) : Priority :=
  if days > 180 then .high
  else if days > 120 then .medium
  else .low

/-- The `priority_order` mapping of line 196: HIGH 0, MEDIUM 1, LOW 2. -/
def priority_order : Priority → Nat
  | .high => 0
  | .medium => 1
  | .low => 2

/-- The `TARGET_SITES` list of lines 9-13. -/
def TARGET_SITES : List String :=
  ["NANT", "BLCK", "AMAG", "MRCH", "HEMP", "HOOK", "LOVE",
   "BRIG", "WILD", "SILD", "OLDB", "PORT", "CAPE", "LEWE", "HLPN",
   "SEAB", "BRAD", "SPRK", "HLGT", "BRMR", "RATH", "WOOD", "CMPT"]

/-- A parsed input row: a site identifier and a visit date (day number). -/
structure VisitRecord where
  site : String
  date : Int
deriving DecidableEq, Repr

/-- One row of the `latest_visits` table. -/
structure SiteStatus where
  site : String
  last_visit_date : Option Int
  days_since_visit : Int
  visit_required : Bool
  priority : Priority
deriving DecidableEq, Repr

/-- Line 151: keep only records whose Site is in the target list. -/
def filterTargets (targets : List String) (records : List VisitRecord) :
    List VisitRecord :=
  records.filter (fun r => targets.contains r.site)

/-- The distinct site keys produced by `groupby(Site)` (line 156). -/
def sitesWithData (records : List VisitRecord) : List String :=
  (records.map (fun r => r.site)).dedup

/-- The most recent visit date for a site, `groupby(Site)[Date].max()`. -/
def lastVisit (records : List VisitRecord) (site : String) : Option Int :=
  ((records.filter (fun r => r.site = site)).map (fun r => r.date)).max?

/-- The `latest_visits` row for a site with data (lines 156-175):
last visit date, days since visit, visit-required flag, priority. -/
def statusOf (records : List VisitRecord) (now : Int) (site : String) :
    SiteStatus :=
  let d := (lastVisit records site).getD 0
  { site := site
    last_visit_date := some d
    days_since_visit := now - d
    visit_required := now - d > 180
    priority := get_priority (now - d) }

/-- The synthesized row for a target site with no records (lines 186-192). -/
def noDataStatus (site : String) : SiteStatus :=
  { site := site
    last_visit_date := none
    days_since_visit := 999
    visit_required := true
    priority := .high }

/-- The `latest_visits` table after grouping and backfill, before the
final sort (lines 150-193). -/
def unsortedStatuses (targets : List String) (records : List VisitRecord)
    (now : Int) : List SiteStatus :=
  let filtered := filterTargets targets records
  ((sitesWithData filtered).map (statusOf filtered now)) ++
    ((targets.dedup.filter (fun s => !(sitesWithData filtered).contains s)).map
      noDataStatus)

/-- The sort key order of line 198: Priority_Order ascending, then
Days_Since_Visit descending. -/
def statusRel (a b : SiteStatus) : Prop :=
  priority_order a.priority < priority_order b.priority ∨
    (priority_order a.priority = priority_order b.priority ∧
      b.days_since_visit ≤ a.days_since_visit)

instance : DecidableRel statusRel := fun a b => by
  unfold statusRel; infer_instance

instance : IsTotal SiteStatus statusRel := by
  constructor; intro a b; unfold statusRel; omega

instance : IsTrans SiteStatus statusRel := by
  constructor; intro a b c; unfold statusRel; omega

/-- `sort_values([Priority_Order, Days_Since_Visit], ascending=[True, False])`
modelled as a comparison sort by the same key order. -/
def sortStatuses (l : List SiteStatus) : List SiteStatus :=
  l.insertionSort statusRel

/-- The final `latest_visits` table of `analyze_site_visits_from_sheets`. -/
def analyzeCore (targets : List String) (records : List VisitRecord)
    (now : Int) : List SiteStatus :=
  sortStatuses (unsortedStatuses targets records now)

/-- The `summary_stats` dictionary (lines 202-212). -/
structure SummaryStats where
  total : Nat
  requiringVisit : Nat
  okSites : Nat
  highCount : Nat
  mediumCount : Nat
  lowCount : Nat
  avgDays : Option Rat
  maxDays : Option Int
  noDataCount : Nat
deriving DecidableEq, Repr

/-- Lines 202-212.  The mean and max are taken over rows with
Days_Since_Visit < 999; the mean of an empty selection is NaN in pandas,
modelled as none. -/
def summaryOf (l : List SiteStatus) : SummaryStats :=
  let dataDays : List Int :=
    (l.filter (fun s => s.days_since_visit < 999)).map
      (fun s => s.days_since_visit)
  { total := l.length
    requiringVisit := (l.filter (fun s => s.visit_required)).length
    okSites := (l.filter (fun s => !s.visit_required)).length
    highCount := (l.filter (fun s => s.priority = Priority.high)).length
    mediumCount := (l.filter (fun s => s.priority = Priority.medium)).length
    lowCount := (l.filter (fun s => s.priority = Priority.low)).length
    avgDays :=
      if dataDays.isEmpty then none
      else some ((dataDays.map (fun d => (d : Rat))).sum / dataDays.length)
    maxDays := dataDays.max?
    noDataCount := (l.filter (fun s => s.days_since_visit = 999)).length }

/-- The distinct failure outcomes of the pipeline: a KeyError on a missing
Site or Date column, a date-parse failure escaping the fallback chain of
lines 132-146, and the None return of `load_data_from_google_sheets`
when the source cannot be read. -/
inductive AnalyzerError where
  | schemaError
  | parseError
  | sourceUnavailable
deriving DecidableEq, Repr

/-- The raw worksheet as `get_all_records` delivers it: per-row cells for
the Site and Date columns, plus flags recording whether each column is
present in the header (accessing an absent column raises KeyError). -/
structure RawTable where
  hasSite : Bool
  hasDate : Bool
  rows : List (String × String)
deriving Repr

/-- One `pd.to_datetime(df[Date], ...)` call: the element parser is
applied to every cell and the whole batch fails if any cell fails. -/
def batchParse (p : String → Option Int) (cells : List String) :
    Option (List Int) :=
  cells.mapM p

/-- The date-conversion fallback chain of lines 132-146: mixed/auto
detection, then MM/DD/YY, then MM/DD/YYYY, then best-effort inference,
each over the whole batch; the first batch-wide success wins, and if the
last attempt also fails its exception propagates as a parse error. -/
def convertDates (p1 p2 p3 p4 : String → Option Int) (cells : List String) :
    Except AnalyzerError (List Int) :=
  match batchParse p1 cells with
  | some ds => .ok ds
  | none =>
    match batchParse p2 cells with
    | some ds => .ok ds
    | none =>
      match batchParse p3 cells with
      | some ds => .ok ds
      | none =>
        match batchParse p4 cells with
        | some ds => .ok ds
        | none => .error .parseError

/-- `analyze_site_visits_from_sheets` with its input plumbing.  A missing
source is the early None return (line 128-130); a missing Date column
makes every `df[Date]` lookup of the conversion chain raise KeyError,
the last one (line 146) uncaught; a missing Site column raises KeyError
at the filter step (line 151). -/
def analyzeFull (p1 p2 p3 p4 : String → Option Int) (source : Option RawTable)
    (targets : List String) (now : Int) :
    Except AnalyzerError (List SiteStatus × SummaryStats) :=
  match source with
  | none => .error .sourceUnavailable
  | some t =>
    if t.hasDate = false then .error .schemaError
    else
      match convertDates p1 p2 p3 p4 (t.rows.map (fun r => r.2)) with
      | .error e => .error e
      | .ok ds =>
        if t.hasSite = false then .error .schemaError
        else
          let records :=
            List.zipWith (fun s d => VisitRecord.mk s d)
              (t.rows.map (fun r => r.1)) ds
          .ok (analyzeCore targets records now,
               summaryOf (analyzeCore targets records now))

/-- Day number of a civil date (days since 1970-01-01), by the standard
era-based algorithm; this is the day-ordinal arithmetic underlying the
pandas timestamp subtraction of line 161. -/
def daysFromCivil (y m d : Int) : Int :=
  let ys := if m ≤ 2 then y - 1 else y
  let era := (if 0 ≤ ys then ys else ys - 399) / 400
  let yoe := ys - era * 400
  let mp := if 2 < m then m - 3 else m + 9
  let doy := (153 * mp + 2) / 5 + d - 1
  let doe := yoe * 365 + yoe / 4 - yoe / 100 + doy
  era * 146097 + doe - 719468

/-- Split a character list at every slash. -/
def splitSlash : List Char → List Char → List (List Char)
  | cur, [] => [cur.reverse]
  | cur, c :: rest =>
    if c = '/' then cur.reverse :: splitSlash [] rest
    else splitSlash (c :: cur) rest

/-- Read a nonempty all-digit character list as a number. -/
def digitsToNat? (cs : List Char) : Option Nat :=
  if cs ≠ [] ∧ ∀ c ∈ cs, c.isDigit then
    some (cs.foldl (fun n c => 10 * n + (c.toNat - 48)) 0)
  else none

/-- The MM/DD/YY element parser (format %m/%d/%y of line 140): one or two
digit month and day, exactly two digit year, with the strptime two-digit
year pivot (00-68 means 20xx, 69-99 means 19xx). -/
def parseMMDDYY (s : String) : Option Int :=
  match splitSlash [] s.data with
  | [ms, ds, ys] =>
    match digitsToNat? ms, digitsToNat? ds, digitsToNat? ys with
    | some m, some d, some y2 =>
      if 2 < ms.length ∨ 2 < ds.length ∨ ys.length ≠ 2 then none
      else if 1 ≤ m ∧ m ≤ 12 ∧ 1 ≤ d ∧ d ≤ 31 then
        let y : Int := if y2 ≤ 68 then 2000 + y2 else 1900 + y2
        some (daysFromCivil y m d)
      else none
    | _, _, _ => none
  | _ => none

end SiteVisits
namespace SiteVisits

theorem sortStatuses_perm (l : List SiteStatus) : List.Perm (sortStatuses l) l :=
  List.perm_insertionSort statusRel l

theorem mem_sortStatuses {e : SiteStatus} {l : List SiteStatus} :
    e ∈ sortStatuses l ↔ e ∈ l :=
  (sortStatuses_perm l).mem_iff

theorem sorted_sortStatuses (l : List SiteStatus) :
    (sortStatuses l).Pairwise statusRel :=
  List.sorted_insertionSort statusRel l

theorem mem_unsortedStatuses {targets : List String}
    {records : List VisitRecord} {now : Int} {e : SiteStatus} :
    e ∈ unsortedStatuses targets records now ↔
      (∃ s ∈ sitesWithData (filterTargets targets records),
        e = statusOf (filterTargets targets records) now s) ∨
      (∃ s, s ∈ targets.dedup ∧
        s ∉ sitesWithData (filterTargets targets records) ∧
        e = noDataStatus s) := by
  unfold unsortedStatuses
  simp only [List.mem_append, List.mem_map, List.mem_filter,
    Bool.not_eq_eq_eq_not, Bool.not_true, List.contains_eq_any_beq,
    List.any_eq_false, beq_iff_eq]
  constructor
  · rintro (⟨s, hs, rfl⟩ | ⟨s, ⟨hs1, hs2⟩, rfl⟩)
    · exact Or.inl ⟨s, hs, rfl⟩
    · refine Or.inr ⟨s, hs1, ?_, rfl⟩
      intro hmem
      exact absurd rfl (hs2 s hmem)
  · rintro (⟨s, hs, rfl⟩ | ⟨s, hs1, hs2, rfl⟩)
    · exact Or.inl ⟨s, hs, rfl⟩
    · refine Or.inr ⟨s, ⟨hs1, ?_⟩, rfl⟩
      intro x hx hxs
      exact hs2 (hxs ▸ hx)

theorem sitesWithData_mem_targets {targets : List String}
    {records : List VisitRecord} {s : String}
    (h : s ∈ sitesWithData (filterTargets targets records)) : s ∈ targets := by
  rw [sitesWithData, List.mem_dedup, List.mem_map] at h
  obtain ⟨r, hr, rfl⟩ := h
  rw [filterTargets, List.mem_filter] at hr
  exact List.elem_iff.mp hr.2

theorem countP_site_eq_ite {l : List String} (hl : l.Nodup) (s : String) :
    l.countP (fun x => decide (x = s)) = if s ∈ l then 1 else 0 := by
  induction l with
  | nil => simp
  | cons a l ih =>
    obtain ⟨ha, hl2⟩ := List.nodup_cons.mp hl
    rw [List.countP_cons, ih hl2]
    by_cases h : a = s
    · subst h
      simp [ha]
    · simp [List.mem_cons, h, Ne.symm h]

end SiteVisits
namespace SiteVisits

theorem mem_noDataSites {targets : List String} {records : List VisitRecord}
    {s : String} :
    s ∈ targets.dedup.filter
        (fun x => !(sitesWithData (filterTargets targets records)).contains x) ↔
      s ∈ targets ∧ s ∉ sitesWithData (filterTargets targets records) := by
  simp [List.mem_filter, List.mem_dedup]

theorem countP_site_unsortedStatuses (targets : List String)
    (records : List VisitRecord) (now : Int) (s : String) :
    (unsortedStatuses targets records now).countP
        (fun e => decide (e.site = s)) =
      if s ∈ targets then 1 else 0 := by
  unfold unsortedStatuses
  rw [List.countP_append, List.countP_map, List.countP_map]
  have h1 : ((fun e : SiteStatus => decide (e.site = s)) ∘
      statusOf (filterTargets targets records) now) =
      fun x => decide (x = s) := rfl
  have h2 : ((fun e : SiteStatus => decide (e.site = s)) ∘ noDataStatus) =
      fun x => decide (x = s) := rfl
  rw [h1, h2]
  have hn1 : (sitesWithData (filterTargets targets records)).Nodup := by
    rw [sitesWithData]; exact List.nodup_dedup _
  rw [countP_site_eq_ite hn1 s,
    countP_site_eq_ite ((List.nodup_dedup targets).filter _) s]
  by_cases hs : s ∈ sitesWithData (filterTargets targets records)
  · have hst : s ∈ targets := sitesWithData_mem_targets hs
    have hno : ¬(s ∈ targets ∧
        s ∉ sitesWithData (filterTargets targets records)) := fun h => h.2 hs
    rw [if_pos hs, if_neg (fun h => hno (mem_noDataSites.mp h)), if_pos hst]
  · by_cases ht : s ∈ targets
    · rw [if_neg hs, if_pos (mem_noDataSites.mpr ⟨ht, hs⟩), if_pos ht]
    · have hno : ¬(s ∈ targets ∧
          s ∉ sitesWithData (filterTargets targets records)) := fun h => ht h.1
      rw [if_neg hs, if_neg (fun h => hno (mem_noDataSites.mp h)), if_neg ht]

theorem countP_site_analyzeCore (targets : List String)
    (records : List VisitRecord) (now : Int) (s : String) :
    (analyzeCore targets records now).countP (fun e => decide (e.site = s)) =
      if s ∈ targets then 1 else 0 := by
  rw [analyzeCore, (sortStatuses_perm _).countP_eq]
  exact countP_site_unsortedStatuses targets records now s

/-- C1: for every record sequence and target-site set, the analyzer output
has exactly one SiteStatus per target site and none for other sites. -/
theorem analyzer_one_entry_per_target (targets : List String)
    (records : List VisitRecord) (now : Int) (s : String) :
    (analyzeCore targets records now).countP (fun e => decide (e.site = s)) =
      if s ∈ targets then 1 else 0 :=
  countP_site_analyzeCore targets records now s

/-- C2: get_priority is a total non-overlapping partition of the integers:
above 180 HIGH, above 120 up to 180 MEDIUM, up to 120 LOW; in particular
180 maps to MEDIUM and 120 maps to LOW. -/
theorem get_priority_partition :
    (∀ d : Int,
      (get_priority d = Priority.high ↔ 180 < d) ∧
      (get_priority d = Priority.medium ↔ 120 < d ∧ d ≤ 180) ∧
      (get_priority d = Priority.low ↔ d ≤ 120)) ∧
    get_priority 180 = Priority.medium ∧ get_priority 120 = Priority.low := by
  refine ⟨fun d => ?_, by decide, by decide⟩
  unfold get_priority
  split_ifs with h1 h2
  all_goals simp_all
  all_goals omega

end SiteVisits
namespace SiteVisits

theorem data_entry_fields {targets : List String} {records : List VisitRecord}
    {now : Int} {e : SiteStatus} (he : e ∈ analyzeCore targets records now)
    {d : Int} (hd : e.last_visit_date = some d) :
    e.days_since_visit = now - d ∧
    e.visit_required = decide (180 < now - d) ∧
    e.priority = get_priority (now - d) := by
  rw [analyzeCore, mem_sortStatuses, mem_unsortedStatuses] at he
  rcases he with ⟨s, -, rfl⟩ | ⟨s, -, -, rfl⟩
  · simp only [statusOf, Option.some.injEq] at hd
    subst hd
    exact ⟨rfl, rfl, rfl⟩
  · simp [noDataStatus] at hd

theorem nodata_entry_fields {targets : List String} {records : List VisitRecord}
    {now : Int} {e : SiteStatus} (he : e ∈ analyzeCore targets records now)
    (hd : e.last_visit_date = none) :
    e.days_since_visit = 999 ∧ e.visit_required = true ∧
    e.priority = Priority.high := by
  rw [analyzeCore, mem_sortStatuses, mem_unsortedStatuses] at he
  rcases he with ⟨s, -, rfl⟩ | ⟨s, -, -, rfl⟩
  · simp [statusOf] at hd
  · exact ⟨rfl, rfl, rfl⟩

/-- C3 counterexample: with one NANT record 1000 days old and AMAG having
no data, the sorted output puts the data-bearing HIGH site NANT before
the no-data HIGH site AMAG, so a no-data site is not maximally overdue. -/
theorem sort_nodata_first_counterexample :
    analyzeCore ["NANT", "AMAG"] [⟨"NANT", 0⟩] 1000 =
      [⟨"NANT", some 0, 1000, true, Priority.high⟩,
       ⟨"AMAG", none, 999, true, Priority.high⟩] := by
  decide

/-- C3 amended: the output is non-decreasing in priority rank and, within
equal priority, non-increasing in days-since-visit; and provided every
data-bearing entry is under the 999 sentinel, no data-bearing HIGH entry
precedes a no-data HIGH entry. -/
theorem analyzer_sorted (targets : List String) (records : List VisitRecord)
    (now : Int)
    (h : ∀ e ∈ analyzeCore targets records now,
      e.last_visit_date.isSome → e.days_since_visit < 999) :
    (analyzeCore targets records now).Pairwise statusRel ∧
    (analyzeCore targets records now).Pairwise
      (fun a b => a.priority = Priority.high → b.priority = Priority.high →
        a.last_visit_date.isSome → b.last_visit_date.isSome) := by
  have hs := sorted_sortStatuses (unsortedStatuses targets records now)
  refine ⟨hs, ?_⟩
  refine List.Pairwise.imp_of_mem ?_ hs
  intro a b ha hb hrel hpa hpb hda
  by_contra hdb
  have hbnone : b.last_visit_date = none := Option.not_isSome_iff_eq_none.mp hdb
  obtain ⟨d, hd⟩ := Option.isSome_iff_exists.mp hda
  have hafield := data_entry_fields ha hd
  have hbfield := nodata_entry_fields hb hbnone
  have halt : a.days_since_visit < 999 := h a ha hda
  rcases hrel with hlt | ⟨-, hle⟩
  · rw [hpa, hpb] at hlt
    exact absurd hlt (by simp [priority_order])
  · rw [hbfield.1] at hle
    omega

/-- C4: a target site with no record surviving the filter gets exactly one
output entry, and that entry has no date, sentinel days 999, priority HIGH
and visit-required true. -/
theorem backfilled_site_status (targets : List String)
    (records : List VisitRecord) (now : Int) (s : String)
    (hs : s ∈ targets)
    (hnone : ∀ r ∈ filterTargets targets records, r.site ≠ s) :
    (analyzeCore targets records now).countP
        (fun e => decide (e.site = s)) = 1 ∧
    ∀ e ∈ analyzeCore targets records now, e.site = s →
      e.last_visit_date = none ∧ e.days_since_visit = 999 ∧
      e.priority = Priority.high ∧ e.visit_required = true := by
  have hnd : s ∉ sitesWithData (filterTargets targets records) := by
    rw [sitesWithData, List.mem_dedup, List.mem_map]
    rintro ⟨r, hr, rfl⟩
    exact hnone r hr rfl
  constructor
  · rw [countP_site_analyzeCore, if_pos hs]
  · intro e he hsite
    rw [analyzeCore, mem_sortStatuses, mem_unsortedStatuses] at he
    rcases he with ⟨x, hx, rfl⟩ | ⟨x, -, -, rfl⟩
    · have hxs : x = s := hsite
      subst hxs
      exact absurd hx hnd
    · have : x = s := hsite
      subst this
      exact ⟨rfl, rfl, rfl, rfl⟩

end SiteVisits
namespace SiteVisits

theorem dataDays_filter_eq {targets : List String} {records : List VisitRecord}
    {now : Int}
    (h : ∀ e ∈ analyzeCore targets records now,
      e.last_visit_date.isSome → e.days_since_visit < 999) :
    (analyzeCore targets records now).filter
        (fun s => s.days_since_visit < 999) =
      (analyzeCore targets records now).filter
        (fun e => e.last_visit_date.isSome) := by
  apply List.filter_congr
  intro e he
  cases hd : e.last_visit_date with
  | none =>
    have h999 := (nodata_entry_fields he hd).1
    simp [h999, hd]
  | some d =>
    have hlt := h e he (by simp [hd])
    simp [hlt, hd]

theorem noDataCount_filter_eq {targets : List String}
    {records : List VisitRecord} {now : Int}
    (h : ∀ e ∈ analyzeCore targets records now,
      e.last_visit_date.isSome → e.days_since_visit < 999) :
    (analyzeCore targets records now).filter
        (fun s => s.days_since_visit = 999) =
      (analyzeCore targets records now).filter
        (fun e => e.last_visit_date = none) := by
  apply List.filter_congr
  intro e he
  cases hd : e.last_visit_date with
  | none =>
    have h999 := (nodata_entry_fields he hd).1
    simp [h999, hd]
  | some d =>
    have hlt := h e he (by simp [hd])
    have : e.days_since_visit ≠ 999 := by omega
    simp [this, hd]

/-- C5 counterexample: with a NANT record exactly 999 days old and AMAG
backfilled, NANT is a data-bearing site with days 999, yet the summary
mean and max exclude it (giving none) and the no-data count is 2 while
only one site was backfilled. -/
theorem summary_stats_counterexample :
    ((analyzeCore ["NANT", "AMAG"] [⟨"NANT", 1⟩] 1000).filter
        (fun e => e.last_visit_date.isSome)).map
          (fun e => e.days_since_visit) = [999] ∧
    (summaryOf (analyzeCore ["NANT", "AMAG"] [⟨"NANT", 1⟩] 1000)).avgDays =
      none ∧
    (summaryOf (analyzeCore ["NANT", "AMAG"] [⟨"NANT", 1⟩] 1000)).maxDays =
      none ∧
    (summaryOf (analyzeCore ["NANT", "AMAG"] [⟨"NANT", 1⟩] 1000)).noDataCount =
      2 ∧
    ((analyzeCore ["NANT", "AMAG"] [⟨"NANT", 1⟩] 1000).filter
        (fun e => e.last_visit_date = none)).length = 1 := by
  decide

/-- C5 amended: the summary reports the total count, the counts by
visit-required and by priority tier, and, provided every data-bearing
entry is under the 999 sentinel, the mean and max of days-since-visit over
exactly the data-bearing sites and a no-data count equal to the number of
backfilled sites. -/
theorem summary_stats_fields (targets : List String)
    (records : List VisitRecord) (now : Int)
    (h : ∀ e ∈ analyzeCore targets records now,
      e.last_visit_date.isSome → e.days_since_visit < 999) :
    (summaryOf (analyzeCore targets records now)).total =
      (analyzeCore targets records now).length ∧
    (summaryOf (analyzeCore targets records now)).requiringVisit =
      ((analyzeCore targets records now).filter
        (fun e => e.visit_required)).length ∧
    (summaryOf (analyzeCore targets records now)).okSites =
      ((analyzeCore targets records now).filter
        (fun e => !e.visit_required)).length ∧
    (summaryOf (analyzeCore targets records now)).highCount =
      ((analyzeCore targets records now).filter
        (fun e => e.priority = Priority.high)).length ∧
    (summaryOf (analyzeCore targets records now)).mediumCount =
      ((analyzeCore targets records now).filter
        (fun e => e.priority = Priority.medium)).length ∧
    (summaryOf (analyzeCore targets records now)).lowCount =
      ((analyzeCore targets records now).filter
        (fun e => e.priority = Priority.low)).length ∧
    (summaryOf (analyzeCore targets records now)).avgDays =
      (if (((analyzeCore targets records now).filter
            (fun e => e.last_visit_date.isSome)).map
              (fun e => e.days_since_visit)).isEmpty then none
       else some ((((((analyzeCore targets records now).filter
            (fun e => e.last_visit_date.isSome)).map
              (fun e => e.days_since_visit) : List Int)).map
                (fun d => (d : Rat))).sum /
          (((analyzeCore targets records now).filter
            (fun e => e.last_visit_date.isSome)).map
              (fun e => e.days_since_visit)).length)) ∧
    (summaryOf (analyzeCore targets records now)).maxDays =
      (((analyzeCore targets records now).filter
        (fun e => e.last_visit_date.isSome)).map
          (fun e => e.days_since_visit)).max? ∧
    (summaryOf (analyzeCore targets records now)).noDataCount =
      ((analyzeCore targets records now).filter
        (fun e => e.last_visit_date = none)).length := by
  have h1 := dataDays_filter_eq h
  have h2 := noDataCount_filter_eq h
  refine ⟨rfl, rfl, rfl, rfl, rfl, rfl, ?_, ?_, ?_⟩
  · show (if (((analyzeCore targets records now).filter
          (fun s => s.days_since_visit < 999)).map
            (fun s => s.days_since_visit)).isEmpty then none
      else some ((((((analyzeCore targets records now).filter
          (fun s => s.days_since_visit < 999)).map
            (fun s => s.days_since_visit) : List Int)).map
              (fun d => (d : Rat))).sum /
        (((analyzeCore targets records now).filter
          (fun s => s.days_since_visit < 999)).map
            (fun s => s.days_since_visit)).length)) = _
    rw [h1]
  · show (((analyzeCore targets records now).filter
        (fun s => s.days_since_visit < 999)).map
          (fun s => s.days_since_visit)).max? = _
    rw [h1]
  · show ((analyzeCore targets records now).filter
        (fun s => s.days_since_visit = 999)).length = _
    rw [h2]

end SiteVisits
namespace SiteVisits

theorem batchParse_isSome (p : String → Option Int) (cells : List String) :
    (batchParse p cells).isSome ↔ ∀ c ∈ cells, (p c).isSome := by
  induction cells with
  | nil => simp only [batchParse, List.mapM_nil]; simp
  | cons c cs ih =>
    simp only [batchParse, List.mapM_cons] at ih ⊢
    cases hp : p c with
    | none => simp [hp]
    | some a =>
      cases hm : cs.mapM p with
      | none =>
        simp only [hm] at ih
        simp only [hp, hm, List.mem_cons]
        simp at ih
        simp [ih]
      | some xs =>
        simp only [hm] at ih
        simp only [hp, hm, List.mem_cons]
        simp at ih
        simp [hp]
        exact ih

/-- C6: the date conversion tries the four format hypotheses in the fixed
order mixed, MM/DD/YY, MM/DD/YYYY, inference; a batch parse succeeds only
when every row parses; the first batch-wide success is used for the whole
batch, and if all four fail the result is a parse error, not a partial
output. -/
theorem date_fallback_chain (p1 p2 p3 p4 : String → Option Int)
    (cells : List String) :
    (∀ p : String → Option Int,
      (batchParse p cells).isSome ↔ ∀ c ∈ cells, (p c).isSome) ∧
    (∀ ds, batchParse p1 cells = some ds →
      convertDates p1 p2 p3 p4 cells = Except.ok ds) ∧
    (∀ ds, batchParse p1 cells = none → batchParse p2 cells = some ds →
      convertDates p1 p2 p3 p4 cells = Except.ok ds) ∧
    (∀ ds, batchParse p1 cells = none → batchParse p2 cells = none →
      batchParse p3 cells = some ds →
      convertDates p1 p2 p3 p4 cells = Except.ok ds) ∧
    (∀ ds, batchParse p1 cells = none → batchParse p2 cells = none →
      batchParse p3 cells = none → batchParse p4 cells = some ds →
      convertDates p1 p2 p3 p4 cells = Except.ok ds) ∧
    (batchParse p1 cells = none → batchParse p2 cells = none →
      batchParse p3 cells = none → batchParse p4 cells = none →
      convertDates p1 p2 p3 p4 cells =
        Except.error AnalyzerError.parseError) := by
  refine ⟨fun p => batchParse_isSome p cells, ?_, ?_, ?_, ?_, ?_⟩
  · intro ds h1
    simp [convertDates, h1]
  · intro ds h1 h2
    simp [convertDates, h1, h2]
  · intro ds h1 h2 h3
    simp [convertDates, h1, h2, h3]
  · intro ds h1 h2 h3 h4
    simp [convertDates, h1, h2, h3, h4]
  · intro h1 h2 h3 h4
    simp [convertDates, h1, h2, h3, h4]

theorem convertDates_error {p1 p2 p3 p4 : String → Option Int}
    {cells : List String} {e : AnalyzerError}
    (h : convertDates p1 p2 p3 p4 cells = Except.error e) :
    e = AnalyzerError.parseError := by
  unfold convertDates at h
  repeat' split at h
  all_goals simp_all

/-- C7: an unreachable source, a missing Site or Date column and an
unparseable date batch are reported as three pairwise distinct failure
outcomes, each aborting the run. -/
theorem error_kinds (p1 p2 p3 p4 : String → Option Int)
    (targets : List String) (now : Int) :
    (analyzeFull p1 p2 p3 p4 none targets now =
      Except.error AnalyzerError.sourceUnavailable) ∧
    (∀ t : RawTable, t.hasDate = false →
      analyzeFull p1 p2 p3 p4 (some t) targets now =
        Except.error AnalyzerError.schemaError) ∧
    (∀ t : RawTable, t.hasDate = true → t.hasSite = false →
      ∀ ds, convertDates p1 p2 p3 p4 (t.rows.map (fun r => r.2)) =
          Except.ok ds →
        analyzeFull p1 p2 p3 p4 (some t) targets now =
          Except.error AnalyzerError.schemaError) ∧
    (∀ t : RawTable, t.hasDate = true →
      convertDates p1 p2 p3 p4 (t.rows.map (fun r => r.2)) =
          Except.error AnalyzerError.parseError →
        analyzeFull p1 p2 p3 p4 (some t) targets now =
          Except.error AnalyzerError.parseError) ∧
    (AnalyzerError.schemaError ≠ AnalyzerError.parseError ∧
      AnalyzerError.schemaError ≠ AnalyzerError.sourceUnavailable ∧
      AnalyzerError.parseError ≠ AnalyzerError.sourceUnavailable) := by
  refine ⟨rfl, ?_, ?_, ?_, by decide⟩
  · intro t hd
    simp [analyzeFull, hd]
  · intro t hd hs ds hconv
    simp [analyzeFull, hd, hs, hconv]
  · intro t hd hconv
    simp [analyzeFull, hd, hconv]

/-- C8: the analyzer is a deterministic function of its inputs and the
reference now time, and on a reachable source with both Site and Date
columns the only possible failure is a parse error. -/
theorem analyzer_pure (p1 p2 p3 p4 : String → Option Int)
    (source : Option RawTable) (targets : List String) (now : Int) :
    (analyzeFull p1 p2 p3 p4 source targets now =
      analyzeFull p1 p2 p3 p4 source targets now) ∧
    (∀ t : RawTable, t.hasSite = true → t.hasDate = true →
      ∀ e : AnalyzerError,
        analyzeFull p1 p2 p3 p4 (some t) targets now = Except.error e →
          e = AnalyzerError.parseError) := by
  refine ⟨rfl, ?_⟩
  intro t hsite hdate e he
  simp only [analyzeFull, hdate] at he
  cases hconv : convertDates p1 p2 p3 p4 (t.rows.map (fun r => r.2)) with
  | error err =>
    rw [hconv] at he
    simp at he
    rw [← he]
    exact convertDates_error hconv
  | ok ds =>
    rw [hconv] at he
    simp [hsite] at he

end SiteVisits
namespace SiteVisits

/-- C9: the two NANT records parse under MM/DD/YY to 2024-01-01 and
2024-06-01; with reference now 2024-08-01 the aggregation keeps the
maximum date 2024-06-01, days-since-visit is 61 and the priority is LOW
with no visit required. -/
theorem nant_scenario :
    parseMMDDYY "01/01/24" = some (daysFromCivil 2024 1 1) ∧
    parseMMDDYY "06/01/24" = some (daysFromCivil 2024 6 1) ∧
    daysFromCivil 2024 8 1 - daysFromCivil 2024 6 1 = 61 ∧
    ∀ e ∈ analyzeCore TARGET_SITES
        [⟨"NANT", daysFromCivil 2024 1 1⟩, ⟨"NANT", daysFromCivil 2024 6 1⟩]
        (daysFromCivil 2024 8 1),
      e.site = "NANT" →
        e.last_visit_date = some (daysFromCivil 2024 6 1) ∧
        e.days_since_visit = 61 ∧
        e.priority = Priority.low ∧ e.visit_required = false := by
  decide

/-- C10: a site whose most recent visit date is strictly after the
reference now has negative days-since-visit, priority LOW and no visit
required; get_priority classifies every negative integer as LOW. -/
theorem future_visit_low (targets : List String) (records : List VisitRecord)
    (now : Int) :
    (∀ e ∈ analyzeCore targets records now, ∀ d : Int,
      e.last_visit_date = some d → now < d →
        e.days_since_visit < 0 ∧ e.priority = Priority.low ∧
        e.visit_required = false) ∧
    (∀ d : Int, d < 0 → get_priority d = Priority.low) := by
  constructor
  · intro e he d hd hlt
    obtain ⟨hdays, hreq, hpri⟩ := data_entry_fields he hd
    refine ⟨by omega, ?_, ?_⟩
    · rw [hpri]
      unfold get_priority
      rw [if_neg (by omega), if_neg (by omega)]
    · rw [hreq]
      simp only [decide_eq_false_iff_not]
      omega
  · intro d hd
    unfold get_priority
    rw [if_neg (by omega), if_neg (by omega)]

theorem analyzer_sorted_witness :
    (∀ e ∈ analyzeCore ["NANT", "AMAG"] [⟨"NANT", 900⟩] 1000,
      e.last_visit_date.isSome → e.days_since_visit < 999) ∧
    ((analyzeCore ["NANT", "AMAG"] [⟨"NANT", 900⟩] 1000).Pairwise statusRel ∧
      (analyzeCore ["NANT", "AMAG"] [⟨"NANT", 900⟩] 1000).Pairwise
        (fun a b => a.priority = Priority.high → b.priority = Priority.high →
          a.last_visit_date.isSome → b.last_visit_date.isSome)) :=
  ⟨by decide, analyzer_sorted ["NANT", "AMAG"] [⟨"NANT", 900⟩] 1000 (by decide)⟩

theorem backfilled_site_status_witness :
    ("AMAG" ∈ (["AMAG"] : List String)) ∧
    (∀ r ∈ filterTargets ["AMAG"] [], r.site ≠ "AMAG") ∧
    ((analyzeCore ["AMAG"] [] 0).countP
        (fun e => decide (e.site = "AMAG")) = 1 ∧
      ∀ e ∈ analyzeCore ["AMAG"] [] 0, e.site = "AMAG" →
        e.last_visit_date = none ∧ e.days_since_visit = 999 ∧
        e.priority = Priority.high ∧ e.visit_required = true) :=
  ⟨by decide, by decide,
    backfilled_site_status ["AMAG"] [] 0 "AMAG" (by decide) (by decide)⟩

theorem summary_stats_fields_witness :
    (∀ e ∈ analyzeCore ["NANT", "AMAG"] [⟨"NANT", 900⟩] 1000,
      e.last_visit_date.isSome → e.days_since_visit < 999) ∧
    (summaryOf (analyzeCore ["NANT", "AMAG"] [⟨"NANT", 900⟩] 1000)).maxDays =
      (((analyzeCore ["NANT", "AMAG"] [⟨"NANT", 900⟩] 1000).filter
        (fun e => e.last_visit_date.isSome)).map
          (fun e => e.days_since_visit)).max? :=
  ⟨by decide,
    (summary_stats_fields ["NANT", "AMAG"] [⟨"NANT", 900⟩] 1000
      (by decide)).2.2.2.2.2.2.2.1⟩

theorem date_fallback_chain_witness :
    convertDates (fun _ => none) (fun _ => some 7) (fun _ => none)
      (fun _ => none) ["x"] = Except.ok [7] ∧
    convertDates (fun _ => none) (fun _ => none) (fun _ => none)
      (fun _ => none) ["x"] = Except.error AnalyzerError.parseError := by
  have h1 := date_fallback_chain (fun _ => none) (fun _ => some 7)
    (fun _ => none) (fun _ => none) ["x"]
  have h2 := date_fallback_chain (fun _ => none) (fun _ => none)
    (fun _ => none) (fun _ => none) ["x"]
  exact ⟨h1.2.2.1 [7] rfl rfl, h2.2.2.2.2.2 rfl rfl rfl rfl⟩

theorem error_kinds_witness :
    analyzeFull (fun _ => none) (fun _ => none) (fun _ => none)
        (fun _ => none) none [] 0 =
      Except.error AnalyzerError.sourceUnavailable ∧
    analyzeFull (fun _ => none) (fun _ => none) (fun _ => none)
        (fun _ => none) (some ⟨true, false, [("NANT", "x")]⟩) [] 0 =
      Except.error AnalyzerError.schemaError ∧
    analyzeFull (fun _ => none) (fun _ => none) (fun _ => none)
        (fun _ => none) (some ⟨true, true, [("NANT", "x")]⟩) [] 0 =
      Except.error AnalyzerError.parseError := by
  have h := error_kinds (fun _ => none) (fun _ => none) (fun _ => none)
    (fun _ => none) [] 0
  exact ⟨h.1, h.2.1 ⟨true, false, [("NANT", "x")]⟩ rfl,
    h.2.2.2.1 ⟨true, true, [("NANT", "x")]⟩ rfl rfl⟩

theorem analyzer_pure_witness :
    analyzeFull (fun _ => none) (fun _ => none) (fun _ => none)
        (fun _ => none) (some ⟨true, true, [("NANT", "x")]⟩) [] 0 =
      analyzeFull (fun _ => none) (fun _ => none) (fun _ => none)
        (fun _ => none) (some ⟨true, true, [("NANT", "x")]⟩) [] 0 ∧
    AnalyzerError.parseError = AnalyzerError.parseError :=
  have h := analyzer_pure (fun _ => none) (fun _ => none) (fun _ => none)
    (fun _ => none) (some ⟨true, true, [("NANT", "x")]⟩) [] 0
  ⟨h.1, h.2 ⟨true, true, [("NANT", "x")]⟩ rfl rfl
    AnalyzerError.parseError rfl ▸ rfl⟩

theorem future_visit_low_witness :
    (⟨"NANT", some 5, -5, false, Priority.low⟩ : SiteStatus) ∈
      analyzeCore ["NANT"] [⟨"NANT", 5⟩] 0 ∧
    ((0 : Int) < 5) ∧
    ((-5 : Int) < 0) ∧ Priority.low = Priority.low ∧ (false = false) := by
  have h := (future_visit_low ["NANT"] [⟨"NANT", 5⟩] 0).1
    ⟨"NANT", some 5, -5, false, Priority.low⟩ (by decide) 5 rfl (by decide)
  exact ⟨by decide, by decide, h.1, h.2.1, by decide⟩

end SiteVisits
